import Mathlib

/-!
Verification of the device session and enrollment orchestrator of
`cosmic-fprint` (files `src/app/fprint.rs`, `src/app/error.rs`,
`src/app/mod.rs`).  Remote bus calls are modelled by oracles: a record of
the outcome each remote call would produce, so every modelled operation is
a pure function of those outcomes.  Each modelled function mirrors the
control flow of its Rust source line by line.
-/

namespace Fprint

/-- A remote bus error (`zbus::Error`).  A method error carries the remote
error identifier, an optional detail body, and the rendered display text of
the whole error (the external library's `Display` output, used by
`err.to_string()`); every other variant is collapsed to its display text. -/
inductive ZbusError where
  | methodError (name : String) (detail : Option String) (display : String)
  | otherError (display : String)
deriving DecidableEq

/-- The rendered message text of a bus error (`err.to_string()` in the source). -/
def ZbusError.display : ZbusError → String
  | .methodError _ _ d => d
  | .otherError d => d

/-- Outcome of a fallible remote call (`zbus::Result`). -/
abbrev ZResult (α : Type) := Except ZbusError α

/-- The structured error taxonomy (`AppError` in `src/app/error.rs`). -/
inductive AppError where
  | PermissionDenied
  | AlreadyInUse
  | Internal
  | NoEnrolledPrints
  | ClaimDevice
  | PrintsNotDeleted
  | Timeout
  | DeviceNotFound
  | ConnectDbus (msg : String)
  | Unknown (msg : String)
deriving DecidableEq

/-- `AppError::with_context` from `src/app/error.rs`: prepend the context to
the message of an `Unknown` error, leave every other variant unchanged. -/
def AppError.with_context (e : AppError) (context : String) : AppError :=
  match e with
  | .Unknown msg => .Unknown (context ++ ": " ++ msg)
  | _ => e

/-- `impl From<zbus::Error> for AppError` from `src/app/error.rs`: a method
error whose identifier is one of the eight recognized names of the
`net.reactivated.Fprint.Error` namespace maps to the corresponding tag;
every other error maps to `Unknown` carrying the rendered message text.
The Rust `match name.as_str()` is a sequential equality test, embedded here
as an if-chain. -/
def AppError.ofZbus (err : ZbusError) : AppError :=
  match err with
  | .methodError name _ _ =>
    if name = "net.reactivated.Fprint.Error.PermissionDenied" then .PermissionDenied
    else if name = "net.reactivated.Fprint.Error.AlreadyInUse" then .AlreadyInUse
    else if name = "net.reactivated.Fprint.Error.Internal" then .Internal
    else if name = "net.reactivated.Fprint.Error.NoEnrolledPrints" then .NoEnrolledPrints
    else if name = "net.reactivated.Fprint.Error.ClaimDevice" then .ClaimDevice
    else if name = "net.reactivated.Fprint.Error.PrintsNotDeleted" then .PrintsNotDeleted
    else if name = "net.reactivated.Fprint.Error.Timeout" then .Timeout
    else if name = "net.reactivated.Fprint.Error.DeviceNotFound" then .DeviceNotFound
    else .Unknown err.display
  | .otherError _ => .Unknown err.display

/-- The eight recognized remote error identifiers, in the order the source
tests them. -/
def fprintErrorNames : List String :=
  [ "net.reactivated.Fprint.Error.PermissionDenied"
  , "net.reactivated.Fprint.Error.AlreadyInUse"
  , "net.reactivated.Fprint.Error.Internal"
  , "net.reactivated.Fprint.Error.NoEnrolledPrints"
  , "net.reactivated.Fprint.Error.ClaimDevice"
  , "net.reactivated.Fprint.Error.PrintsNotDeleted"
  , "net.reactivated.Fprint.Error.Timeout"
  , "net.reactivated.Fprint.Error.DeviceNotFound" ]

/-- Modelled from the spec: the localization catalog behind the repository's
`fl!` macro (its `i18n` module is not among the provided sources).  The spec
treats localization as out of scope and only requires that every key yield
one fixed localized string, so the catalog is modelled as an injective
encoding of the key. -/
def fl (key : String) : String := "localized:" ++ key

/-- Rust `Result::and` as used by `delete_fingerprint_dbus`: keep the first
error, otherwise return the second result. -/
def resultAnd (res : ZResult Unit) (rel : ZResult Unit) : ZResult Unit :=
  match res with
  | .error e => .error e
  | .ok _ => rel

/-- The messages the orchestrator emits that the verified claims mention
(`Message` in `src/app/message.rs`, restricted to the relevant
constructors; `DeviceFound` abstracts the path and proxy payload to a
presence flag). -/
inductive Message where
  | DeviceFound (found : Bool)
  | OperationError (e : AppError)
  | EnrollStart (total_stages : Option Nat)
  | EnrollStatus (result : String) (done : Bool)
deriving DecidableEq

/-- Remote-call outcomes for one run of `delete_fingerprint_dbus`:
proxy construction, `claim`, `delete_enrolled_finger`, `release`. -/
structure DeleteCallOutcomes where
  build : ZResult Unit
  claim : ZResult Unit
  delete_enrolled_finger : ZResult Unit
  release : ZResult Unit

/-- Result of a run of `delete_fingerprint_dbus`: the returned value and
how many times `release` was invoked. -/
structure DeleteRun where
  result : ZResult Unit
  releases : Nat

/-- `delete_fingerprint_dbus` from `src/app/fprint.rs`: build the proxy,
claim, delete the finger, release, and return `res.and(rel_res)`. -/
def delete_fingerprint_dbus (dev : DeleteCallOutcomes) : DeleteRun :=
  match dev.build with
  | .error e => { result := .error e, releases := 0 }
  | .ok _ =>
    match dev.claim with
    | .error e => { result := .error e, releases := 0 }
    | .ok _ =>
      { result := resultAnd dev.delete_enrolled_finger dev.release
      , releases := 1 }

/-- Remote-call outcomes for one username inside `clear_all_fingers_dbus`:
`claim`, `list_enrolled_fingers`, per-finger `delete_enrolled_finger`, and
`release`. -/
structure UserClearOutcomes where
  username : String
  claim : ZResult Unit
  list_enrolled_fingers : ZResult (List String)
  delete_enrolled_finger : String → ZResult Unit
  release : ZResult Unit

/-- One iteration of the username loop of `clear_all_fingers_dbus`: a failed
claim records the error and skips the body; otherwise each failing finger
delete and a failing release overwrite the recorded error. -/
def clearUserStep (last : Option ZbusError) (dev : UserClearOutcomes) :
    Option ZbusError :=
  match dev.claim with
  | .error e => some e
  | .ok _ =>
    let afterDeletes :=
      match dev.list_enrolled_fingers with
      | .ok fingers =>
        fingers.foldl (fun acc finger =>
          match dev.delete_enrolled_finger finger with
          | .error e => some e
          | .ok _ => acc) last
      | .error e => some e
    match dev.release with
    | .error e => some e
    | .ok _ => afterDeletes

/-- Result of a run of `clear_all_fingers_dbus`: the returned value and the
usernames for which a `claim` call was issued, in order. -/
structure ClearRun where
  result : ZResult Unit
  claimed : List String

/-- `clear_all_fingers_dbus` from `src/app/fprint.rs`: build the proxy, then
for every username run the loop body (which always issues exactly one claim
call), and finally return the last recorded error, or `Ok` when none was
recorded. -/
def clear_all_fingers_dbus (build : ZResult Unit)
    (users : List UserClearOutcomes) : ClearRun :=
  match build with
  | .error e => { result := .error e, claimed := [] }
  | .ok _ =>
    match users.foldl clearUserStep none with
    | some e => { result := .error e, claimed := users.map (fun u => u.username) }
    | none => { result := .ok (), claimed := users.map (fun u => u.username) }

/-- One item produced by the enroll status signal stream: either a parsed
`(result, done)` pair or a signal whose arguments fail to parse. -/
inductive SignalItem where
  | parsed (result : String) (done : Bool)
  | parseError
deriving DecidableEq

/-- The signal loop of `enroll_fingerprint_process`: emit one
`EnrollStatus` message per parsed signal, stopping after a signal with
`done == true`; on a parse failure emit one `Unknown` operation error and
stop; stop when the stream ends. -/
def enrollSignalLoop : List SignalItem → List Message
  | [] => []
  | .parsed result done :: rest =>
    .EnrollStatus result done :: (if done then [] else enrollSignalLoop rest)
  | .parseError :: _ =>
    [.OperationError (.Unknown "Failed to parse signal")]

/-- Remote-call outcomes for one run of `enroll_fingerprint_process`:
proxy construction, `claim`, the `num_enroll_stages` property read,
`enroll_start`, the stream subscription, the finite list of signals the
stream yields before the remote closes it, and `release` (whose outcome the
source ignores). -/
structure EnrollCallOutcomes where
  build : ZResult Unit
  claim : ZResult Unit
  num_enroll_stages : ZResult Int
  enroll_start : ZResult Unit
  receive_enroll_status : ZResult Unit
  signals : List SignalItem
  release : ZResult Unit

/-- Result of a run of `enroll_fingerprint_process`: the returned value, the
messages sent to the output sink in order, and how many times `release` was
invoked. -/
structure EnrollRun where
  result : ZResult Unit
  emitted : List Message
  releases : Nat

/-- `enroll_fingerprint_process` from `src/app/fprint.rs`: build the proxy,
claim, read the stage count (positive values only), emit `EnrollStart`,
start enrollment (releasing on failure), subscribe to the status stream
(releasing on failure), run the signal loop, release once, and return
`Ok`. -/
def enroll_fingerprint_process (dev : EnrollCallOutcomes) : EnrollRun :=
  match dev.build with
  | .error e => { result := .error e, emitted := [], releases := 0 }
  | .ok _ =>
    match dev.claim with
    | .error e => { result := .error e, emitted := [], releases := 0 }
    | .ok _ =>
      let total_stages : Option Nat :=
        match dev.num_enroll_stages with
        | .ok n => if 0 < n then some n.toNat else none
        | .error _ => none
      match dev.enroll_start with
      | .error e =>
        { result := .error e, emitted := [.EnrollStart total_stages], releases := 1 }
      | .ok _ =>
        match dev.receive_enroll_status with
        | .error e =>
          { result := .error e, emitted := [.EnrollStart total_stages], releases := 1 }
        | .ok _ =>
          { result := .ok ()
          , emitted := .EnrollStart total_stages :: enrollSignalLoop dev.signals
          , releases := 1 }

/-- The slice of the application model `on_enroll_status` reads and writes
(`AppModel` in `src/app/mod.rs`). -/
structure EnrollUiState where
  status : String
  busy : Bool
  enrolling_finger : Option String
  enroll_progress : Nat
deriving DecidableEq

/-- `AppModel::on_enroll_status` from `src/app/mod.rs`: translate the
result code to a localized status line (`enroll-stage-passed` also
increments the stage counter; unrecognized codes pass through verbatim);
when `done` is set, clear the busy flag and the enrolling finger, and
trigger a finger-list refresh exactly when the code is `enroll-completed`.
The returned flag records whether the refresh task was triggered. -/
def on_enroll_status (s : EnrollUiState) (status : String) (done : Bool) :
    EnrollUiState × Bool :=
  let progress :=
    if status = "enroll-stage-passed" then s.enroll_progress + 1 else s.enroll_progress
  let status_msg :=
    if status = "enroll-stage-passed" then fl "enroll-stage-passed"
    else if status = "enroll-retry-scan" then fl "enroll-retry-scan"
    else if status = "enroll-swipe-too-short" then fl "enroll-swipe-too-short"
    else if status = "enroll-finger-not-centered" then fl "enroll-finger-not-centered"
    else if status = "enroll-remove-and-retry" then fl "enroll-remove-and-retry"
    else if status = "enroll-unknown-error" then fl "enroll-unknown-error"
    else if status = "enroll-completed" then fl "enroll-completed"
    else if status = "enroll-failed" then fl "enroll-failed"
    else if status = "enroll-disconnected" then fl "enroll-disconnected"
    else if status = "enroll-data-full" then fl "enroll-data-full"
    else if status = "enroll-too-fast" then fl "enroll-too-fast"
    else if status = "enroll-duplicate" then fl "enroll-duplicate"
    else if status = "enroll-cancelled" then fl "enroll-cancelled"
    else status
  let s1 := { s with status := status_msg, enroll_progress := progress }
  if done then
    let s2 := { s1 with busy := false, enrolling_finger := none }
    if status = "enroll-completed" then (s2, true) else (s2, false)
  else (s1, false)

/-- Deliver a sequence of `(result, done)` signals to `on_enroll_status`,
returning the final model slice and whether the last delivery triggered the
finger-list refresh. -/
def runEnrollStatuses (s : EnrollUiState) (events : List (String × Bool)) :
    EnrollUiState × Bool :=
  events.foldl (fun p ev => on_enroll_status p.1 ev.1 ev.2) (s, false)

/-- The model slice right after the `EnrollStart` message was handled:
busy, a finger being enrolled, and a zeroed stage counter. -/
def enrollingInit : EnrollUiState :=
  { status := fl "enroll-starting"
  , busy := true
  , enrolling_finger := some "right-index-finger"
  , enroll_progress := 0 }

/-- A user entry (`UserOption` in `src/app/message.rs`). -/
structure UserOption where
  username : String
  realname : String
deriving DecidableEq

/-- The selection update of `AppModel::on_users_found` from
`src/app/mod.rs`: when a user was selected and no refreshed entry has its
username, move to the first entry when the list is non-empty (keeping the
old selection when it is empty); when a matching entry exists, replace the
selection with the first match; with no previous selection, select the
first entry of a non-empty list. -/
def on_users_found (selected_user : Option UserOption)
    (users : List UserOption) : Option UserOption :=
  match selected_user with
  | some selected =>
    if ¬ users.any (fun u => u.username == selected.username) then
      match users with
      | [] => some selected
      | first :: _ => some first
    else
      match users.find? (fun u => u.username == selected.username) with
      | some updated => some updated
      | none => some selected
  | none =>
    match users with
    | [] => none
    | first :: _ => some first

/-- Remote-call outcomes for one run of `on_enroll_stop`: proxy
construction, the best-effort `enroll_stop` call (its outcome is ignored by
the source), and `release`. -/
structure StopCallOutcomes where
  build : ZResult Unit
  enroll_stop : ZResult Unit
  release : ZResult Unit

/-- Result of a run of `on_enroll_stop`: the message delivered back to the
application and how many times `release` was invoked. -/
structure StopRun where
  message : Message
  releases : Nat
deriving DecidableEq

/-- `AppModel::on_enroll_stop` from `src/app/mod.rs`: build the proxy,
issue a best-effort `enroll_stop` (failure ignored), then release; on
success report the `enroll-cancelled` terminal status, on failure report
the mapped structured error. -/
def on_enroll_stop (dev : StopCallOutcomes) : StopRun :=
  match dev.build with
  | .error e => { message := .OperationError (AppError.ofZbus e), releases := 0 }
  | .ok _ =>
    match dev.release with
    | .error e => { message := .OperationError (AppError.ofZbus e), releases := 1 }
    | .ok _ => { message := .EnrollStatus "enroll-cancelled" true, releases := 1 }

/-- The device-discovery branch of `AppModel::on_connection_ready` from
`src/app/mod.rs`: a successful `find_device` reports the device; a failure
is mapped through the error taxonomy, and when the mapped error is
`Unknown` it is replaced by `DeviceNotFound`. -/
def find_device_outcome_message (findResult : ZResult Unit) : Message :=
  match findResult with
  | .ok _ => .DeviceFound true
  | .error e =>
    match AppError.ofZbus e with
    | .Unknown _ => .OperationError .DeviceNotFound
    | err => .OperationError err

/-- C3: the remote-error mapper is a total function (it is a Lean function,
so every input produces exactly one tag); each of the eight recognized
identifiers of the `net.reactivated.Fprint.Error` namespace maps
deterministically to its tag, and any other named or non-method error maps
to `Unknown` carrying the original message text. -/
theorem ofZbus_total_table (name : String) (detail : Option String) (display : String) :
    (name = "net.reactivated.Fprint.Error.PermissionDenied" →
      AppError.ofZbus (.methodError name detail display) = .PermissionDenied) ∧
    (name = "net.reactivated.Fprint.Error.AlreadyInUse" →
      AppError.ofZbus (.methodError name detail display) = .AlreadyInUse) ∧
    (name = "net.reactivated.Fprint.Error.Internal" →
      AppError.ofZbus (.methodError name detail display) = .Internal) ∧
    (name = "net.reactivated.Fprint.Error.NoEnrolledPrints" →
      AppError.ofZbus (.methodError name detail display) = .NoEnrolledPrints) ∧
    (name = "net.reactivated.Fprint.Error.ClaimDevice" →
      AppError.ofZbus (.methodError name detail display) = .ClaimDevice) ∧
    (name = "net.reactivated.Fprint.Error.PrintsNotDeleted" →
      AppError.ofZbus (.methodError name detail display) = .PrintsNotDeleted) ∧
    (name = "net.reactivated.Fprint.Error.Timeout" →
      AppError.ofZbus (.methodError name detail display) = .Timeout) ∧
    (name = "net.reactivated.Fprint.Error.DeviceNotFound" →
      AppError.ofZbus (.methodError name detail display) = .DeviceNotFound) ∧
    (name ∉ fprintErrorNames →
      AppError.ofZbus (.methodError name detail display) = .Unknown display) ∧
    AppError.ofZbus (.otherError display) = .Unknown display := by
  refine ⟨?_, ?_, ?_, ?_, ?_, ?_, ?_, ?_, ?_, rfl⟩ <;> intro h
  · subst h; simp [AppError.ofZbus, ZbusError.display]
  · subst h; simp [AppError.ofZbus, ZbusError.display]
  · subst h; simp [AppError.ofZbus, ZbusError.display]
  · subst h; simp [AppError.ofZbus, ZbusError.display]
  · subst h; simp [AppError.ofZbus, ZbusError.display]
  · subst h; simp [AppError.ofZbus, ZbusError.display]
  · subst h; simp [AppError.ofZbus, ZbusError.display]
  · subst h; simp [AppError.ofZbus, ZbusError.display]
  · simp [fprintErrorNames] at h
    obtain ⟨h1, h2, h3, h4, h5, h6, h7, h8⟩ := h
    simp [AppError.ofZbus, ZbusError.display, h1, h2, h3, h4, h5, h6, h7, h8]

/-- Witness for C3 at concrete inputs: a recognized identifier maps to its
tag, discharging the hypothesis of the corresponding conjunct. -/
theorem ofZbus_total_table_witness :
    AppError.ofZbus (.methodError "net.reactivated.Fprint.Error.Timeout" none "boom")
      = .Timeout :=
  (ofZbus_total_table "net.reactivated.Fprint.Error.Timeout" none "boom").2.2.2.2.2.2.1 rfl

/-- C4: `with_context` leaves every tag except `Unknown` unchanged; on
`Unknown m` with context `c` the resulting message is `c ++ ": " ++ m`,
the rendering of the source's format string. -/
theorem with_context_unknown_only (e : AppError) (context : String) :
    (∀ msg, e = .Unknown msg →
      e.with_context context = .Unknown (context ++ ": " ++ msg)) ∧
    ((∀ msg, e ≠ .Unknown msg) → e.with_context context = e) := by
  cases e with
  | Unknown m =>
    refine ⟨fun msg h => ?_, fun h => absurd rfl (h m)⟩
    cases h
    rfl
  | _ => exact ⟨fun msg h => (nomatch h), fun _ => rfl⟩

/-- Witness for C4 at concrete inputs: context is prepended to an `Unknown`
message. -/
theorem with_context_unknown_only_witness :
    (AppError.Unknown "boom").with_context "ctx" = .Unknown ("ctx" ++ ": " ++ "boom") :=
  (with_context_unknown_only (.Unknown "boom") "ctx").1 "boom" rfl

/-- C2: when the claim call of `delete_fingerprint_dbus` succeeds, release
is invoked exactly once whether or not the delete body succeeds, and a
failing body's error is the returned error regardless of the release
outcome. -/
theorem delete_release_once_body_error_wins (dev : DeleteCallOutcomes)
    (hbuild : dev.build = .ok ()) (hclaim : dev.claim = .ok ()) :
    (delete_fingerprint_dbus dev).releases = 1 ∧
    (∀ e, dev.delete_enrolled_finger = .error e →
      (delete_fingerprint_dbus dev).result = .error e) := by
  obtain ⟨b, c, del, rel⟩ := dev
  cases hbuild
  cases hclaim
  refine ⟨rfl, fun e he => ?_⟩
  cases he
  rfl

/-- Witness for C2 at a concrete input where both the delete body and the
release fail: release is counted once and the body's error is returned. -/
theorem delete_release_once_body_error_wins_witness :
    (delete_fingerprint_dbus
      { build := .ok (), claim := .ok ()
      , delete_enrolled_finger := .error (.otherError "delete failed")
      , release := .error (.otherError "release failed") }).releases = 1 ∧
    (delete_fingerprint_dbus
      { build := .ok (), claim := .ok ()
      , delete_enrolled_finger := .error (.otherError "delete failed")
      , release := .error (.otherError "release failed") }).result
      = .error (.otherError "delete failed") := by
  have h := delete_release_once_body_error_wins
    { build := .ok (), claim := .ok ()
    , delete_enrolled_finger := .error (.otherError "delete failed")
    , release := .error (.otherError "release failed") } rfl rfl
  exact ⟨h.1, h.2 _ rfl⟩

/-- C8: once the proxy is built, `on_enroll_stop` invokes release exactly
once, its behaviour does not depend on the outcome of the best-effort stop
call, and when release succeeds the reported event is the
`enroll-cancelled` terminal status rather than a structured error. -/
theorem enroll_stop_cancel_release_once (dev : StopCallOutcomes)
    (hbuild : dev.build = .ok ()) :
    (on_enroll_stop dev).releases = 1 ∧
    (∀ r, on_enroll_stop { dev with enroll_stop := r } = on_enroll_stop dev) ∧
    (dev.release = .ok () →
      (on_enroll_stop dev).message = .EnrollStatus "enroll-cancelled" true) := by
  obtain ⟨b, st, rel⟩ := dev
  cases hbuild
  refine ⟨?_, fun r => rfl, fun hrel => ?_⟩
  · cases rel <;> rfl
  · cases hrel
    rfl

/-- Witness for C8 at a concrete input where the stop call fails: the
outcome is the cancelled terminal status with one release call. -/
theorem enroll_stop_cancel_release_once_witness :
    (on_enroll_stop
      { build := .ok (), enroll_stop := .error (.otherError "stop failed")
      , release := .ok () }).releases = 1 ∧
    (on_enroll_stop
      { build := .ok (), enroll_stop := .error (.otherError "stop failed")
      , release := .ok () }).message = .EnrollStatus "enroll-cancelled" true := by
  have h := enroll_stop_cancel_release_once
    { build := .ok (), enroll_stop := .error (.otherError "stop failed")
    , release := .ok () } rfl
  exact ⟨h.1, h.2.2 rfl⟩

/-- C1: once the claim of `enroll_fingerprint_process` has succeeded,
release is invoked exactly once on every terminal path: the oracle is
arbitrary, so this covers a failing `enroll_start`, a failing stream
subscription, a `done == true` signal, a parse failure, and the stream
ending without a terminal signal. -/
theorem enroll_release_exactly_once (dev : EnrollCallOutcomes)
    (hbuild : dev.build = .ok ()) (hclaim : dev.claim = .ok ()) :
    (enroll_fingerprint_process dev).releases = 1 := by
  obtain ⟨b, c, n, st, sub, sigs, rel⟩ := dev
  cases hbuild
  cases hclaim
  cases st <;> cases sub <;> rfl

/-- Witness for C1 at a concrete input: a claimed enrollment that completes
releases exactly once. -/
theorem enroll_release_exactly_once_witness :
    (enroll_fingerprint_process
      { build := .ok (), claim := .ok (), num_enroll_stages := .ok 5
      , enroll_start := .ok (), receive_enroll_status := .ok ()
      , signals := [.parsed "enroll-completed" true]
      , release := .ok () }).releases = 1 :=
  enroll_release_exactly_once
    { build := .ok (), claim := .ok (), num_enroll_stages := .ok 5
    , enroll_start := .ok (), receive_enroll_status := .ok ()
    , signals := [.parsed "enroll-completed" true]
    , release := .ok () } rfl rfl

/-- C5 counterexample: a device-discovery failure whose remote error is the
recognized identifier `net.reactivated.Fprint.Error.PermissionDenied`
surfaces the `PermissionDenied` tag, not `DeviceNotFound`, so not every
discovery failure surfaces `DeviceNotFound`. -/
theorem find_device_permission_denied_not_normalized :
    find_device_outcome_message
        (.error (.methodError "net.reactivated.Fprint.Error.PermissionDenied"
          none "denied"))
      = .OperationError .PermissionDenied ∧
    Message.OperationError .PermissionDenied
      ≠ .OperationError .DeviceNotFound := by
  refine ⟨?_, by decide⟩
  simp [find_device_outcome_message, AppError.ofZbus]

/-- C5 as amended: a discovery failure never surfaces a raw `Unknown`
error; failures whose mapped error is `Unknown` are normalized to
`DeviceNotFound`, and every other mapped tag is surfaced unchanged. -/
theorem find_device_error_normalization (e : ZbusError) :
    (∀ m, find_device_outcome_message (.error e) ≠ .OperationError (.Unknown m)) ∧
    (∀ m, AppError.ofZbus e = .Unknown m →
      find_device_outcome_message (.error e) = .OperationError .DeviceNotFound) ∧
    ((∀ m, AppError.ofZbus e ≠ .Unknown m) →
      find_device_outcome_message (.error e) = .OperationError (AppError.ofZbus e)) := by
  refine ⟨fun m => ?_, fun m hm => ?_, fun hm => ?_⟩
  · cases h : AppError.ofZbus e <;> simp [find_device_outcome_message, h]
  · simp [find_device_outcome_message, hm]
  · cases h : AppError.ofZbus e <;>
      first
        | exact absurd h (hm _)
        | simp [find_device_outcome_message, h]

/-- Witness for C5 at a concrete input: a non-method transport error maps
to `Unknown` and is surfaced as `DeviceNotFound`. -/
theorem find_device_error_normalization_witness :
    find_device_outcome_message (.error (.otherError "socket closed"))
      = .OperationError .DeviceNotFound :=
  (find_device_error_normalization (.otherError "socket closed")).2.1
    "socket closed" rfl

/-- C9: for the signal sequence stage-passed, stage-passed, completed the
stream loop emits exactly those three status events and ignores anything
after the `done == true` signal, and delivering them to `on_enroll_status`
leaves the stage counter at `2` and ends in the completed terminal state:
not busy, no enrolling finger, and the finger-list refresh triggered. -/
theorem enroll_three_stage_sequence (rest : List SignalItem) :
    enrollSignalLoop
        ([ .parsed "enroll-stage-passed" false
         , .parsed "enroll-stage-passed" false
         , .parsed "enroll-completed" true ] ++ rest)
      = [ .EnrollStatus "enroll-stage-passed" false
        , .EnrollStatus "enroll-stage-passed" false
        , .EnrollStatus "enroll-completed" true ] ∧
    runEnrollStatuses enrollingInit
        [ ("enroll-stage-passed", false), ("enroll-stage-passed", false)
        , ("enroll-completed", true) ]
      = ({ status := fl "enroll-completed", busy := false
         , enrolling_finger := none, enroll_progress := 2 }, true) :=
  ⟨rfl, rfl⟩

/-- The signal loop on parsed non-terminal signals followed by a parse
failure: one status message per parsed signal, then a single `Unknown`
operation error, ignoring everything after the failure. -/
theorem enrollSignalLoop_parse_failure (ps : List String) (rest : List SignalItem) :
    enrollSignalLoop
        (ps.map (fun r => .parsed r false) ++ .parseError :: rest)
      = ps.map (fun r => .EnrollStatus r false)
        ++ [.OperationError (.Unknown "Failed to parse signal")] := by
  induction ps with
  | nil => rfl
  | cons r ps ih => simp [enrollSignalLoop, ih]

/-- C10: when a received signal fails to parse after any run of parsed
non-terminal signals, `enroll_fingerprint_process` emits an `Unknown`
operation-error event as its last message, stops the loop there, releases
exactly once, and still returns `Ok`. -/
theorem enroll_parse_failure_event_only (dev : EnrollCallOutcomes)
    (ps : List String) (rest : List SignalItem)
    (hbuild : dev.build = .ok ()) (hclaim : dev.claim = .ok ())
    (hstart : dev.enroll_start = .ok ())
    (hsub : dev.receive_enroll_status = .ok ())
    (hsig : dev.signals = ps.map (fun r => .parsed r false) ++ .parseError :: rest) :
    (enroll_fingerprint_process dev).result = .ok () ∧
    (enroll_fingerprint_process dev).releases = 1 ∧
    (enroll_fingerprint_process dev).emitted.tail
      = ps.map (fun r => .EnrollStatus r false)
        ++ [.OperationError (.Unknown "Failed to parse signal")] := by
  obtain ⟨b, c, n, st, sub, sigs, rel⟩ := dev
  cases hbuild
  cases hclaim
  cases hstart
  cases hsub
  subst hsig
  refine ⟨rfl, rfl, ?_⟩
  simpa [enroll_fingerprint_process] using enrollSignalLoop_parse_failure ps rest

/-- Witness for C10 at a concrete input: one retry signal and then a parse
failure yield an emitted error event, one release, and an `Ok` return. -/
theorem enroll_parse_failure_event_only_witness :
    (enroll_fingerprint_process
      { build := .ok (), claim := .ok (), num_enroll_stages := .ok 5
      , enroll_start := .ok (), receive_enroll_status := .ok ()
      , signals := [.parsed "enroll-retry-scan" false, .parseError]
      , release := .ok () }).result = .ok () ∧
    (enroll_fingerprint_process
      { build := .ok (), claim := .ok (), num_enroll_stages := .ok 5
      , enroll_start := .ok (), receive_enroll_status := .ok ()
      , signals := [.parsed "enroll-retry-scan" false, .parseError]
      , release := .ok () }).releases = 1 ∧
    (enroll_fingerprint_process
      { build := .ok (), claim := .ok (), num_enroll_stages := .ok 5
      , enroll_start := .ok (), receive_enroll_status := .ok ()
      , signals := [.parsed "enroll-retry-scan" false, .parseError]
      , release := .ok () }).emitted.tail
      = [ .EnrollStatus "enroll-retry-scan" false
        , .OperationError (.Unknown "Failed to parse signal") ] :=
  enroll_parse_failure_event_only
    { build := .ok (), claim := .ok (), num_enroll_stages := .ok 5
    , enroll_start := .ok (), receive_enroll_status := .ok ()
    , signals := [.parsed "enroll-retry-scan" false, .parseError]
    , release := .ok () } ["enroll-retry-scan"] [] rfl rfl rfl rfl rfl

/-- In the finger-delete loop of `clear_all_fingers_dbus`, deletes that all
succeed leave the recorded error unchanged. -/
theorem clear_deletes_ok_keep_error (dev : UserClearOutcomes) (fingers : List String)
    (h : ∀ f ∈ fingers, dev.delete_enrolled_finger f = .ok ())
    (acc : Option ZbusError) :
    fingers.foldl (fun acc finger =>
      match dev.delete_enrolled_finger finger with
      | .error e => some e
      | .ok _ => acc) acc = acc := by
  induction fingers generalizing acc with
  | nil => rfl
  | cons f fs ih =>
    have hf := h f (List.mem_cons_self f fs)
    simp only [List.foldl_cons, hf]
    exact ih (fun g hg => h g (List.mem_cons_of_mem f hg)) acc

/-- C6: `clear_all_fingers_dbus` issues a claim for every username even
when earlier usernames fail (the claimed-trace lists them all), returns the
last recorded error when one was recorded and `Ok` otherwise, and in the
two-username scenario where the first claim fails and the second username
deletes cleanly the returned error is the first username's claim error. -/
theorem clear_all_continues_past_claim_failure
    (A B : UserClearOutcomes) (eA : ZbusError) (fingers : List String)
    (hA : A.claim = .error eA)
    (hBclaim : B.claim = .ok ())
    (hBlist : B.list_enrolled_fingers = .ok fingers)
    (hBdel : ∀ f ∈ fingers, B.delete_enrolled_finger f = .ok ())
    (hBrel : B.release = .ok ()) :
    (clear_all_fingers_dbus (.ok ()) [A, B]).result = .error eA ∧
    (clear_all_fingers_dbus (.ok ()) [A, B]).claimed = [A.username, B.username] ∧
    (∀ users : List UserClearOutcomes,
      (clear_all_fingers_dbus (.ok ()) users).claimed
        = users.map (fun u => u.username)) ∧
    (∀ users e, users.foldl clearUserStep none = some e →
      (clear_all_fingers_dbus (.ok ()) users).result = .error e) ∧
    (∀ users, users.foldl clearUserStep none = none →
      (clear_all_fingers_dbus (.ok ()) users).result = .ok ()) := by
  have hstepA : clearUserStep none A = some eA := by
    simp [clearUserStep, hA]
  have hstepB : clearUserStep (some eA) B = some eA := by
    simp only [clearUserStep, hBclaim, hBlist, hBrel]
    exact clear_deletes_ok_keep_error B fingers hBdel (some eA)
  have hfold : [A, B].foldl clearUserStep none = some eA := by
    simp only [List.foldl_cons, List.foldl_nil, hstepA, hstepB]
  refine ⟨?_, ?_, fun users => ?_, fun users e he => ?_, fun users hn => ?_⟩
  · simp [clear_all_fingers_dbus, hfold]
  · simp [clear_all_fingers_dbus, hfold]
  · cases h : users.foldl clearUserStep none <;>
      simp [clear_all_fingers_dbus, h]
  · simp [clear_all_fingers_dbus, he]
  · simp [clear_all_fingers_dbus, hn]

/-- Witness for C6 at a concrete input: with usernames alice (claim fails)
and bob (clean delete of one finger), both usernames are claimed and the
result is alice's claim error. -/
theorem clear_all_continues_past_claim_failure_witness :
    (clear_all_fingers_dbus (.ok ())
      [ { username := "alice", claim := .error (.otherError "claim failed")
        , list_enrolled_fingers := .ok []
        , delete_enrolled_finger := fun _ => .ok (), release := .ok () }
      , { username := "bob", claim := .ok ()
        , list_enrolled_fingers := .ok ["right-index-finger"]
        , delete_enrolled_finger := fun _ => .ok (), release := .ok () } ]).result
      = .error (.otherError "claim failed") ∧
    (clear_all_fingers_dbus (.ok ())
      [ { username := "alice", claim := .error (.otherError "claim failed")
        , list_enrolled_fingers := .ok []
        , delete_enrolled_finger := fun _ => .ok (), release := .ok () }
      , { username := "bob", claim := .ok ()
        , list_enrolled_fingers := .ok ["right-index-finger"]
        , delete_enrolled_finger := fun _ => .ok (), release := .ok () } ]).claimed
      = ["alice", "bob"] := by
  have h := clear_all_continues_past_claim_failure
    { username := "alice", claim := .error (.otherError "claim failed")
    , list_enrolled_fingers := .ok []
    , delete_enrolled_finger := fun _ => .ok (), release := .ok () }
    { username := "bob", claim := .ok ()
    , list_enrolled_fingers := .ok ["right-index-finger"]
    , delete_enrolled_finger := fun _ => .ok (), release := .ok () }
    (.otherError "claim failed") ["right-index-finger"]
    rfl rfl rfl (fun f hf => rfl) rfl
  exact ⟨h.1, h.2.1⟩

/-- C7 counterexample: refreshing with an empty user list keeps the stale
previous selection instead of clearing it, so the selection does not become
absent. -/
theorem users_found_empty_list_keeps_selection :
    on_users_found (some { username := "alice", realname := "Alice" }) []
      = some { username := "alice", realname := "Alice" } ∧
    some { username := "alice", realname := "Alice" } ≠ (none : Option UserOption) :=
  ⟨rfl, by simp⟩

/-- C7 as amended: after a refresh, when the refreshed list contains the
previously selected username the selection becomes the first matching entry
(same username, updated display name); when it is absent and the list is
non-empty the selection becomes the first entry; when the list is empty the
previous selection is retained unchanged (and an absent selection stays
absent only in that case, otherwise it becomes the first entry). -/
theorem users_found_reselection (sel : UserOption) (users : List UserOption) :
    (∀ u, users.find? (fun v => v.username == sel.username) = some u →
      on_users_found (some sel) users = some u ∧ u.username = sel.username) ∧
    (users.find? (fun v => v.username == sel.username) = none →
      on_users_found (some sel) users
        = (match users with | [] => some sel | first :: _ => some first)) ∧
    (on_users_found none users
      = (match users with | [] => none | first :: _ => some first)) := by
  refine ⟨fun u hu => ?_, fun hn => ?_, ?_⟩
  · have hmem := List.mem_of_find?_eq_some hu
    have hpu := List.find?_some hu
    have hany : users.any (fun v => v.username == sel.username) = true :=
      List.any_eq_true.2 ⟨u, hmem, hpu⟩
    exact ⟨by simp [on_users_found, hany, hu], eq_of_beq hpu⟩
  · have hany : users.any (fun v => v.username == sel.username) = false := by
      rw [List.any_eq_false]
      intro v hv
      exact List.find?_eq_none.1 hn v hv
    cases users with
    | nil => simp [on_users_found]
    | cons first rest => simp [on_users_found, hany]
  · cases users <;> rfl

/-- Witness for C7 at a concrete input: the refreshed list still holds the
selected username, so the selection keeps the username with the refreshed
display name. -/
theorem users_found_reselection_witness :
    on_users_found (some { username := "alice", realname := "Al" })
        [ { username := "bob", realname := "Bo" }
        , { username := "alice", realname := "Alice Updated" } ]
      = some { username := "alice", realname := "Alice Updated" } :=
  ((users_found_reselection { username := "alice", realname := "Al" }
      [ { username := "bob", realname := "Bo" }
      , { username := "alice", realname := "Alice Updated" } ]).1
    { username := "alice", realname := "Alice Updated" } rfl).1

end Fprint
